import Mathlib

/-!
Verification of the Numato Neso platform descriptor
(`amaranth_boards/numato_neso.py`).

The file under study is a static board description: a platform record
(device identity, default clock/reset names, a `resources` table and a
`connectors` table) plus one method, `toolchain_prepare`, that injects three
fixed override strings into the parent framework's build step, and a
`__main__` block that builds a Blinky test design.

We embed the descriptor data and the `toolchain_prepare` method shallowly:
pin declarations become explicit lists of pin-identifier strings, the
override dictionary becomes an association list, and the Python keyword
unpacking `f(**overrides, **kwargs)` is embedded with Python's actual call
semantics (a duplicated keyword argument raises `TypeError`).
-/

namespace NumatoNeso

/-- Pin declaration forms used by the descriptor: `Pins` (plain),
`PinsN` (active-low), and `DiffPairs` (differential, positive and negative
pin lists). The direction string is carried as written in the source. -/
inductive PinDecl where
  | pins      (ids : List String) (dir : String)
  | pinsN     (ids : List String) (dir : String)
  | diffPairs (p n : List String) (dir : String)
  deriving Repr, DecidableEq

/-- Physical pin identifiers mentioned by a pin declaration. -/
def PinDecl.ids : PinDecl → List String
  | .pins ids _      => ids
  | .pinsN ids _     => ids
  | .diffPairs p n _ => p ++ n

/-- Number of pins (for a differential declaration, the number of pairs). -/
def PinDecl.width : PinDecl → Nat
  | .pins ids _      => ids.length
  | .pinsN ids _     => ids.length
  | .diffPairs p _ _ => p.length

/-- A named subsignal of a grouped resource, with its pin declaration and
electrical attributes (`Attrs`, embedded as key/value pairs). -/
structure Subsignal where
  name  : String
  decl  : PinDecl
  attrs : List (String × String)
  deriving Repr, DecidableEq

/-- Body of a resource: either a direct pin declaration (like `clk100`)
or a group of subsignals (like `ddr3`). -/
inductive ResourceBody where
  | direct  (d : PinDecl)
  | grouped (subs : List Subsignal)
  deriving Repr, DecidableEq

/-- A resource of the platform: name, index, body, optional clock frequency
in Hz, and resource-level attributes. -/
structure Resource where
  name    : String
  number  : Nat
  body    : ResourceBody
  clockHz : Option Nat
  attrs   : List (String × String)
  deriving Repr, DecidableEq

/-- All physical pin identifiers used by a resource. -/
def Resource.pinIds (r : Resource) : List String :=
  match r.body with
  | .direct d      => d.ids
  | .grouped subs  => subs.flatMap (fun s => s.decl.ids)

/-- Width of the named subsignal of a grouped resource. -/
def Resource.subWidth (r : Resource) (sub : String) : Option Nat :=
  match r.body with
  | .direct _     => none
  | .grouped subs =>
      (subs.find? (fun s => s.name == sub)).map (fun s => s.decl.width)

/-- Connector pin assignments: an ordered list (from a whitespace-separated
pin string) or a keyed mapping (from a dict). -/
inductive ConnectorPins where
  | ordered (ids : List String)
  | keyed   (entries : List (String × String))
  deriving Repr, DecidableEq

/-- A connector of the platform. -/
structure Connector where
  name   : String
  number : Nat
  pins   : ConnectorPins
  deriving Repr, DecidableEq

/-- All physical pin identifiers used by a connector. -/
def Connector.pinIds (c : Connector) : List String :=
  match c.pins with
  | .ordered ids   => ids
  | .keyed entries => entries.map (fun e => e.2)

/-- The static platform descriptor record. -/
structure PlatformData where
  device      : String
  package     : String
  speed       : String
  default_clk : String
  default_rst : String
  resources   : List Resource
  connectors  : List Connector
  deriving Repr, DecidableEq

/-- Modelled from the spec: the "external SPI-flash resource-generator
helper" (`SPIFlashResources`, imported from this repository's `.resources`
package, whose source is not included here). Per the spec it generates the
SPI-flash resource group for the given unit index from the named pins; we
model it as yielding one SPI-flash resource at that index whose subsignals
carry exactly the pins passed at the call site, with the given attributes. -/
def SPIFlashResources (number : Nat) (cs_n clk copi cipo wp_n hold_n : String)
    (attrs : List (String × String)) : List Resource :=
  [{ name := "spi_flash", number := number,
     body := .grouped [
       { name := "cs",     decl := .pinsN [cs_n] "o",  attrs := [] },
       { name := "clk",    decl := .pins [clk] "o",    attrs := [] },
       { name := "copi",   decl := .pins [copi] "o",   attrs := [] },
       { name := "cipo",   decl := .pins [cipo] "i",   attrs := [] },
       { name := "wp",     decl := .pinsN [wp_n] "o",  attrs := [] },
       { name := "hold",   decl := .pinsN [hold_n] "o", attrs := [] }],
     clockHz := none, attrs := attrs }]

/-- The `NumatoNesoPlatform` descriptor, transcribed from the source. -/
def NumatoNesoPlatform : PlatformData where
  device      := "xc7a100t"
  package     := "csg324"
  speed       := "2"
  default_clk := "clk100"
  default_rst := "rst"
  resources   :=
    [ -- On-board oscillator
      { name := "clk100", number := 0, body := .direct (.pins ["F4"] "i"),
        clockHz := some 100000000, attrs := [("IOSTANDARD", "LVCMOS33")] },
      -- DDR3 RAM
      { name := "ddr3", number := 0,
        body := .grouped [
          { name := "rst",    decl := .pinsN ["U8"] "o", attrs := [] },
          { name := "clk",    decl := .diffPairs ["L6"] ["L5"] "o",
            attrs := [("IOSTANDARD", "DIFF_SSTL15"), ("IN_TERM", "UNTUNED_SPLIT_50")] },
          { name := "clk_en", decl := .pins ["M1"] "o", attrs := [] },
          { name := "cs",     decl := .pinsN ["K6"] "o", attrs := [] },
          { name := "we",     decl := .pinsN ["N2"] "o", attrs := [] },
          { name := "ras",    decl := .pinsN ["N4"] "o", attrs := [] },
          { name := "cas",    decl := .pinsN ["L1"] "o", attrs := [] },
          { name := "a",
            decl := .pins ["M4", "P4", "M6", "T1", "L3", "P5", "M2", "N1",
                           "L4", "N5", "R2", "K5", "N6", "K3"] "o",
            attrs := [] },
          { name := "ba", decl := .pins ["P2", "P3", "R1"] "o", attrs := [] },
          { name := "dqs",
            decl := .diffPairs ["U9", "U2"] ["V9", "V2"] "io",
            attrs := [("IOSTANDARD", "DIFF_SSTL15"), ("IN_TERM", "UNTUNED_SPLIT_50")] },
          { name := "dq",
            decl := .pins ["R7", "V6", "R8", "U7", "V7", "R6", "U6", "R5",
                           "T5", "U3", "V5", "U4", "V4", "T4", "V1", "T3"] "io",
            attrs := [("IN_TERM", "UNTUNED_SPLIT_50")] },
          { name := "dm",  decl := .pins ["T6", "U1"] "o", attrs := [] },
          { name := "odt", decl := .pins ["M3"] "o", attrs := [] }],
        clockHz := none,
        attrs := [("IOSTANDARD", "SSTL15"), ("SLEW", "FAST")] }]
    -- QSPI Flash
    ++ SPIFlashResources 0 "L13" "E9" "K17" "K18" "L14" "F18"
         [("IOSTANDARD", "LVCMOS33")]
  connectors :=
    [ -- Pin header connectors
      { name := "p", number := 4, pins := .ordered [
         "A14", "A13", "D13", "D12", "A11", "B11", "F14", "F13",
         "B14", "B13", "A16", "A15", "A9", "A10", "B12", "C12",
         "A8", "B8", "C10", "C11", "B9", "C9", "B6", "B7",
         "C5", "C6", "A5", "A6", "C7", "D8", "D7", "E7",
         "D4", "D5", "D3", "E3", "A3", "A4", "B2", "B3",
         "C1", "C2", "A1", "B1", "G1", "H1", "E1", "F1",
         "D2", "E2", "K1", "K2", "J2", "J3", "B4", "C4",
         "E5", "E6", "G2", "H2", "F3", "F5", "G3", "G4",
         "H5", "H6", "H4", "J4", "F6", "G6"] },
      { name := "p", number := 5, pins := .ordered [
         "B16", "B17", "D14", "C14", "C16", "C17", "H14", "G14",
         "T8", "J5", "E15", "E16", "E17", "D17", "F15", "F16",
         "J14", "H15", "H17", "G17", "H16", "G16", "K13", "J13",
         "L15", "L16", "L18", "M18", "R12", "R13", "K15", "J15",
         "M16", "M17", "R18", "T18", "P15", "R15", "N15", "N16",
         "N14", "P14", "P17", "R17", "N17", "P18", "U16", "V17",
         "U17", "U18", "U14", "V14", "V15", "V16", "T14", "T15",
         "R16", "T16", "T9", "T10", "T13", "U13", "T11", "U11",
         "R10", "R11", "V10", "V11", "U12", "V12"] },
      -- FTDI Chip
      { name := "ftdi", number := 0, pins := .keyed [
         ("d0", "A18"), ("d1", "B18"), ("d2", "D18"), ("d3", "E18"),
         ("d4", "F18"), ("d5", "G18"), ("d6", "J17"), ("d7", "J18"),
         ("txe", "K16"), ("rxf", "G13"), ("wr_n", "M13"), ("rd_n", "D9"),
         ("siwub", "J18")] }]

/-- Every physical pin identifier mentioned anywhere in the descriptor:
all resources, then all connectors. -/
def allPinIds : List String :=
  NumatoNesoPlatform.resources.flatMap Resource.pinIds
    ++ NumatoNesoPlatform.connectors.flatMap Connector.pinIds

/-- Names of the declared resources. -/
def resourceNames : List String :=
  NumatoNesoPlatform.resources.map Resource.name

/-- Look up a resource of the platform by name and index. -/
def findResource (name : String) (number : Nat) : Option Resource :=
  NumatoNesoPlatform.resources.find?
    (fun r => r.name == name && r.number == number)

/-- An elaboration fragment, treated opaquely by `toolchain_prepare` (it is
only passed through to the parent build step). -/
structure Fragment where
  id : Nat
  deriving Repr, DecidableEq

/-- The fixed override dictionary built inside `toolchain_prepare`, in
source order, with the design name substituted into the
`script_after_bitstream` entry (Python `str.format`). -/
def overrides (name : String) : List (String × String) :=
  [("script_before_bitstream",
    "set_property BITSTREAM.CONFIG.SPI_BUSWIDTH 4 [current_design]"),
   ("script_after_bitstream",
    "write_cfgmem -force -format bin -interface spix4 -size 16 "
      ++ "-loadbit \"up 0x0 " ++ name ++ ".bit\" -file " ++ name ++ ".bin"),
   ("add_constraints",
    "\n                set_property CFGBVS VCCO [current_design]\n"
      ++ "                set_property CONFIG_VOLTAGE 3.3 [current_design]\n"
      ++ "                ")]

/-- Python call semantics for `f(**first, **second)`: if the two keyword
dictionaries share a key, the call raises
`TypeError: got multiple values for keyword argument`; otherwise the
callee receives the union, first entries before second. -/
def unpackKwargs (first second : List (String × String)) :
    Except String (List (String × String)) :=
  match second.find? (fun kv => first.any (fun fv => fv.1 == kv.1)) with
  | some kv => .error ("TypeError: got multiple values for keyword argument "
      ++ kv.1)
  | none    => .ok (first ++ second)

/-- The keyword arguments received by the parent class's
`toolchain_prepare` (the external framework's build step), as delegated to. -/
structure ParentPrepareCall where
  fragment : Fragment
  name     : String
  kwargs   : List (String × String)
  deriving Repr, DecidableEq

/-- Shallow embedding of `NumatoNesoPlatform.toolchain_prepare`: builds the
fixed `overrides` dictionary and delegates to the parent build step as
`super().toolchain_prepare(fragment, name, **overrides, **kwargs)`. The
platform record is returned unchanged alongside the delegated call (the
method assigns nothing to `self`); a duplicated keyword raises, per Python
call semantics. -/
def toolchain_prepare (p : PlatformData) (fragment : Fragment) (name : String)
    (kwargs : List (String × String)) :
    PlatformData × Except String ParentPrepareCall :=
  (p, (unpackKwargs (overrides name) kwargs).map
        (fun merged => ⟨fragment, name, merged⟩))

/-- The design class built by the `__main__` block
(`NumatoNesoPlatform().build(Blinky())`). -/
def mainBuildDesign : String := "Blinky"

/-- Keyword arguments passed to the framework's `build` entry point by the
`__main__` block: none are passed (in particular, no `do_program`). -/
def mainBuildKwargs : List (String × Bool) := []

/-- Claim C1: with no caller-supplied keyword overrides, `toolchain_prepare`
passes to the parent build step exactly the three fixed override entries,
with their literal texts: the SPI bus-width property, the `write_cfgmem`
invocation with the design name substituted, and the two voltage-constraint
lines. -/
theorem toolchain_prepare_no_caller_overrides (p : PlatformData) (f : Fragment)
    (name : String) :
    (toolchain_prepare p f name []).2 = .ok ⟨f, name,
      [("script_before_bitstream",
        "set_property BITSTREAM.CONFIG.SPI_BUSWIDTH 4 [current_design]"),
       ("script_after_bitstream",
        "write_cfgmem -force -format bin -interface spix4 -size 16 "
          ++ "-loadbit \"up 0x0 " ++ name ++ ".bit\" -file " ++ name ++ ".bin"),
       ("add_constraints",
        "\n                set_property CFGBVS VCCO [current_design]\n"
          ++ "                set_property CONFIG_VOLTAGE 3.3 [current_design]\n"
          ++ "                ")]⟩ := rfl

set_option maxRecDepth 10000 in
/-- Claim C2 (evaluation at the failing inputs): the physical pin
identifiers of the descriptor are not pairwise distinct. Pin J18 is
assigned to both the `d7` and the `siwub` entries of the `ftdi` connector,
and pin F18 is assigned to both the SPI-flash `hold_n` argument and the
`d4` entry of the `ftdi` connector. -/
theorem descriptor_pin_ids_not_unique :
    allPinIds.count "J18" = 2 ∧ allPinIds.count "F18" = 2 ∧
      ¬ allPinIds.Nodup := by decide

/-- Claim C3 (counterexample): a caller-supplied override for the fixed key
"add_constraints" is not superseded and merged; the delegated call fails
with a TypeError for a duplicated keyword argument. -/
theorem caller_override_fixed_key_call_fails_concrete :
    (toolchain_prepare NumatoNesoPlatform ⟨0⟩ "top"
        [("add_constraints", "x")]).2
      = .error
          "TypeError: got multiple values for keyword argument add_constraints"
      := rfl

/-- Claim C3 (amended): whenever the caller passes a keyword override whose
key is one of the three fixed override names, `toolchain_prepare` does not
perform the delegated call at all: unpacking `**overrides, **kwargs` raises
a TypeError for the duplicated keyword argument. -/
theorem caller_override_fixed_key_raises_type_error (p : PlatformData)
    (f : Fragment) (name : String) (kwargs : List (String × String))
    (k v : String) (hmem : (k, v) ∈ kwargs)
    (hk : k = "script_before_bitstream" ∨ k = "script_after_bitstream"
            ∨ k = "add_constraints") :
    ∃ e, (toolchain_prepare p f name kwargs).2 = .error e := by
  have hpred : (overrides name).any (fun fv => fv.1 == (k, v).1) = true := by
    rcases hk with h | h | h <;> simp [overrides, h]
  have hsome : (kwargs.find?
      (fun kv => (overrides name).any (fun fv => fv.1 == kv.1))).isSome := by
    rw [List.find?_isSome]
    exact ⟨(k, v), hmem, hpred⟩
  obtain ⟨kv, hkv⟩ := Option.isSome_iff_exists.mp hsome
  refine ⟨"TypeError: got multiple values for keyword argument " ++ kv.1, ?_⟩
  simp [toolchain_prepare, unpackKwargs, hkv, Except.map]

/-- Witness for the amended C3 theorem at a concrete caller override. -/
theorem caller_override_fixed_key_raises_type_error_witness :
    ∃ e, (toolchain_prepare NumatoNesoPlatform ⟨0⟩ "top"
        [("script_after_bitstream", "mine")]).2 = .error e :=
  caller_override_fixed_key_raises_type_error NumatoNesoPlatform ⟨0⟩ "top"
    [("script_after_bitstream", "mine")] "script_after_bitstream" "mine"
    (by simp) (Or.inr (Or.inl rfl))

/-- Claim C4 (counterexample): the `__main__` block passes no `do_program`
keyword to the framework's `build` entry point, so programming is not
enabled there. -/
theorem main_build_passes_no_do_program :
    mainBuildKwargs.lookup "do_program" = none ∧
      ("do_program", true) ∉ mainBuildKwargs := by decide

/-- Claim C4 (amended): invoked as a script, the module delegates a build
of the Blinky test design to the framework's `build` entry point with no
keyword arguments (in particular `do_program` is left at its default), and
the resource and connector tables satisfy the framework's add-time
name+index uniqueness checks. -/
theorem main_build_blinky_no_program :
    mainBuildDesign = "Blinky" ∧ mainBuildKwargs = [] ∧
    (NumatoNesoPlatform.resources.map (fun r => (r.name, r.number))).Nodup ∧
    (NumatoNesoPlatform.connectors.map (fun c => (c.name, c.number))).Nodup
      := by decide

/-- Claim C5: for every design name, the "script_after_bitstream" override
is the fixed `write_cfgmem` command with the design name substituted into
both the `.bit` input and the `.bin` output file names, load address 0x0,
interface spix4. -/
theorem script_after_bitstream_substitutes_name (name : String) :
    (overrides name).lookup "script_after_bitstream"
      = some ("write_cfgmem -force -format bin -interface spix4 -size 16 "
          ++ "-loadbit \"up 0x0 " ++ name ++ ".bit\" -file " ++ name
          ++ ".bin") := rfl

/-- Claim C6 (evaluation at the failing input): the default clock name
"clk100" names a declared resource, but the default reset name "rst" names
no resource of the table. -/
theorem default_rst_not_declared :
    NumatoNesoPlatform.default_clk ∈ resourceNames ∧
      NumatoNesoPlatform.default_rst ∉ resourceNames := by decide

/-- Claim C7: (name, index) pairs are unique within the resources table and
within the connectors table. -/
theorem resource_connector_name_number_unique :
    (NumatoNesoPlatform.resources.map (fun r => (r.name, r.number))).Nodup ∧
    (NumatoNesoPlatform.connectors.map (fun c => (c.name, c.number))).Nodup
      := by decide

/-- Claim C8: `toolchain_prepare` has no side effect on the platform
descriptor: for every platform record, fragment, design name and caller
kwargs, every static attribute (device, package, speed, default clock and
reset names, resources and connectors tables) is identical before and after
the call. -/
theorem toolchain_prepare_leaves_platform_unchanged (p : PlatformData)
    (f : Fragment) (name : String) (kwargs : List (String × String)) :
    (toolchain_prepare p f name kwargs).1.device = p.device ∧
    (toolchain_prepare p f name kwargs).1.package = p.package ∧
    (toolchain_prepare p f name kwargs).1.speed = p.speed ∧
    (toolchain_prepare p f name kwargs).1.default_clk = p.default_clk ∧
    (toolchain_prepare p f name kwargs).1.default_rst = p.default_rst ∧
    (toolchain_prepare p f name kwargs).1.resources = p.resources ∧
    (toolchain_prepare p f name kwargs).1.connectors = p.connectors ∧
    (toolchain_prepare p f name kwargs).1 = p :=
  ⟨rfl, rfl, rfl, rfl, rfl, rfl, rfl, rfl⟩

/-- Claim C9: across any two successful calls of `toolchain_prepare` (any
platforms, fragments, design names and caller kwargs), the
"script_before_bitstream" and "add_constraints" values received by the
parent build step are character-for-character identical; they do not depend
on design name or caller input. -/
theorem fixed_override_texts_call_independent (p1 p2 : PlatformData)
    (f1 f2 : Fragment) (n1 n2 : String)
    (kwargs1 kwargs2 : List (String × String)) (c1 c2 : ParentPrepareCall)
    (h1 : (toolchain_prepare p1 f1 n1 kwargs1).2 = .ok c1)
    (h2 : (toolchain_prepare p2 f2 n2 kwargs2).2 = .ok c2) :
    c1.kwargs.lookup "script_before_bitstream"
      = c2.kwargs.lookup "script_before_bitstream" ∧
    c1.kwargs.lookup "add_constraints"
      = c2.kwargs.lookup "add_constraints" := by
  have e1 : c1.kwargs = overrides n1 ++ kwargs1 := by
    cases hf : kwargs1.find?
        (fun kv => (overrides n1).any (fun fv => fv.1 == kv.1)) with
    | some kv => simp [toolchain_prepare, unpackKwargs, hf, Except.map] at h1
    | none =>
        simp [toolchain_prepare, unpackKwargs, hf, Except.map] at h1
        rw [← h1]
  have e2 : c2.kwargs = overrides n2 ++ kwargs2 := by
    cases hf : kwargs2.find?
        (fun kv => (overrides n2).any (fun fv => fv.1 == kv.1)) with
    | some kv => simp [toolchain_prepare, unpackKwargs, hf, Except.map] at h2
    | none =>
        simp [toolchain_prepare, unpackKwargs, hf, Except.map] at h2
        rw [← h2]
  rw [e1, e2]
  exact ⟨rfl, rfl⟩

/-- Witness for the C9 theorem at two concrete successful calls. -/
theorem fixed_override_texts_call_independent_witness :
    (ParentPrepareCall.mk ⟨0⟩ "alpha" (overrides "alpha" ++ [])).kwargs.lookup
        "script_before_bitstream"
      = (ParentPrepareCall.mk ⟨1⟩ "beta"
          (overrides "beta" ++ [("x", "y")])).kwargs.lookup
        "script_before_bitstream" ∧
    (ParentPrepareCall.mk ⟨0⟩ "alpha" (overrides "alpha" ++ [])).kwargs.lookup
        "add_constraints"
      = (ParentPrepareCall.mk ⟨1⟩ "beta"
          (overrides "beta" ++ [("x", "y")])).kwargs.lookup
        "add_constraints" :=
  fixed_override_texts_call_independent NumatoNesoPlatform NumatoNesoPlatform
    ⟨0⟩ ⟨1⟩ "alpha" "beta" [] [("x", "y")]
    (ParentPrepareCall.mk ⟨0⟩ "alpha" (overrides "alpha" ++ []))
    (ParentPrepareCall.mk ⟨1⟩ "beta" (overrides "beta" ++ [("x", "y")]))
    rfl rfl

/-- Claim C10: the ddr3 resource's data-path subsignal widths match a
16-bit DDR3 bus in two byte lanes: dq has 16 pins, dm has 2, dqs has 2
differential pairs, the address bus a has 14 pins and the bank address ba
has 3. -/
theorem ddr3_data_path_widths :
    ((findResource "ddr3" 0).bind (fun r => r.subWidth "dq") = some 16) ∧
    ((findResource "ddr3" 0).bind (fun r => r.subWidth "dm") = some 2) ∧
    ((findResource "ddr3" 0).bind (fun r => r.subWidth "dqs") = some 2) ∧
    ((findResource "ddr3" 0).bind (fun r => r.subWidth "a") = some 14) ∧
    ((findResource "ddr3" 0).bind (fun r => r.subWidth "ba") = some 3) := by
  decide

end NumatoNeso
